import Mathlib

/-!
Verification of the gqlgen CRUD tutorial repository.

The repository is a GraphQL CRUD facade over two MySQL tables managed by GORM
(`models/models.go`, `mysql/connection.go`, and the resolver implementations in
`graph/schema.resolvers.go`, reproduced in full in the readme).  We embed the
persistent state as two tables of rows plus the auto-increment counters, and
each resolver as a pure function from the state (and the outcome of the
underlying storage driver for the request) to the returned entity, the error
value the resolver returns to the caller, and the successor state.

GORM v1 semantics used by this code, reflected in the embedding:
  * `db.First(&todo)` adds the `WHERE id = ?` condition only when the
    struct's primary key is non-blank (nonzero): it then issues
    `SELECT * FROM todos WHERE id = ? ORDER BY id LIMIT 1`.  With a blank
    key (`todo.ID == 0`) the WHERE clause is omitted and it issues
    `SELECT * FROM todos ORDER BY id LIMIT 1`, loading the lowest-id row of
    the table.  On a miss it leaves the struct untouched (the caller keeps
    the value it built) and records a record-not-found error on the handle,
    which every resolver here discards.
  * `db.First(&todo, id)` (inline condition, used by the `Todo` query)
    applies `WHERE id = ?` unconditionally, even for id 0.
  * `db.Model(&models.Todo{}).Update(&todo)` SETs exactly the non-blank
    (non-zero-value) fields of `todo` and conditions the UPDATE on
    `todo.ID` when it is nonzero; with a blank `todo.ID` the UPDATE is
    unconditioned (and `id` is not among the SET fields).
  * `db.Delete(&todo)` issues `DELETE FROM todos WHERE id = todo.ID` when
    `todo.ID` is nonzero, and an unconditioned DELETE when it is blank.
  * `db.Preload("User")` resolves each returned row's `User` field from the
    users table by `user_id`, leaving the zero-value `User` when the owner
    row is absent.
Every resolver ends in `return &x, nil`: the error recorded on the GORM
handle by a failing statement is never propagated.
-/

/-- Go struct `models.User` (`ID int`, `Name string`).  The `Todos []Todo`
back-reference of the Go struct is a relationship field that no resolver in
this repository ever preloads (it is always `nil`), and it is not a column of
the `users` table; it is therefore omitted from the embedding. -/
structure User where
  id : Int
  name : String
  deriving DecidableEq, Repr

/-- The zero value of `models.User`. -/
def User.zero : User := { id := 0, name := "" }

/-- Go struct `models.Todo` (`ID int`, `Text string`, `Done bool`,
`UserID int`, `User User`).  `User` is the eagerly-resolvable relationship
field, not a column. -/
structure Todo where
  id : Int
  text : String
  done : Bool
  userID : Int
  user : User
  deriving DecidableEq, Repr

/-- The zero value of `models.Todo`. -/
def Todo.zero : Todo := { id := 0, text := "", done := false, userID := 0, user := User.zero }

/-- One row of the `todos` table created by `db.AutoMigrate(&models.Todo{}, ...)`:
the columns are `id`, `text`, `done`, `user_id` (the `User` field is a
relationship, not a column). -/
structure TodoRow where
  id : Int
  text : String
  done : Bool
  userID : Int
  deriving DecidableEq, Repr

/-- A `todos` row as `db.First` scans it into a `models.Todo` struct without a
preload: every column is copied and the `User` relationship field stays zero. -/
def rowToTodo (r : TodoRow) : Todo :=
  { id := r.id, text := r.text, done := r.done, userID := r.userID, user := User.zero }

/-- The persistent state behind the shared `var db = mysql.Connection()`
handle: the `todos` and `users` tables and the MySQL auto-increment counters
for their `id` columns. -/
structure DB where
  todos : List TodoRow
  users : List User
  nextTodoID : Int
  nextUserID : Int
  deriving DecidableEq, Repr

/-- The state right after `mysql.Connection()` has created the empty tables:
no rows, both auto-increment counters at 1. -/
def dbInit : DB := { todos := [], users := [], nextTodoID := 1, nextUserID := 1 }

/-- `SELECT * FROM todos WHERE id = ? ORDER BY id LIMIT 1`: the keyed
lookup.  `db.Preload("User").First(&todo, input.ID)` (the `Todo` query)
issues exactly this, its inline condition being applied for every id,
including 0; `db.First(&todo)` issues it only when the struct's primary key
is non-blank.  `some r` says exactly that a row with this id is stored. -/
def DB.firstTodo (db : DB) (id : Int) : Option TodoRow :=
  db.todos.find? (fun r => r.id == id)

/-- `SELECT * FROM todos ORDER BY id LIMIT 1`: the row a WHERE-less `First`
loads — the stored row with the smallest id (at the earliest table position
among equals; real primary keys are unique). -/
def minIdRow : List TodoRow → Option TodoRow
  | [] => none
  | r :: rs =>
      match minIdRow rs with
      | none => some r
      | some s => if r.id ≤ s.id then some r else some s

/-- `db.First(&todo)` with the primary key taken from the struct, as
`UpdateTodo` and `DeleteTodo` call it: a keyed lookup when the key is
non-blank (nonzero), the WHERE-less lowest-id load when the key is blank
(GORM v1 `whereSQL` skips the primary condition for a blank key). -/
def DB.gormFirstTodo (db : DB) (id : Int) : Option TodoRow :=
  if id = 0 then minIdRow db.todos else db.firstTodo id

/-- `SELECT * FROM users WHERE id = ?`, the lookup `Preload("User")` performs
for a row's `user_id`. -/
def DB.userById (db : DB) (id : Int) : Option User :=
  db.users.find? (fun u => u.id == id)

/-- The `User` field `Preload("User")` leaves on a returned `Todo`: the owner
row when it exists, the zero-value `User` otherwise. -/
def DB.preloadUser (db : DB) (id : Int) : User :=
  (db.userById id).getD User.zero

/-- Outcome of the underlying MySQL driver for one request: `some e` models
every statement of the request failing with raw driver error `e`
(connectivity loss mid-request), `none` models normal operation.  A failing
statement performs no write and returns no row; GORM records `e` on the
handle, and whether the resolver propagates it is exactly what the resolver's
second component shows. -/
abbrev DriverErr := Option String

/-- GORM v1 `db.Model(&models.Todo{}).Update(&todo)` applied to one stored
row.  The UPDATE SETs exactly the non-blank fields of `todo` (`text` when it
is not the empty string, `done` when it is `true`, `user_id` when it is
nonzero, and `id` — to its own value — when it is nonzero) on the matched
rows: those whose primary key equals `todo.ID` when it is nonzero, and every
row when `todo.ID` is blank (the assign callback then leaves the scope's
primary key blank, so the WHERE clause is omitted).  Unmatched rows are
untouched; a matched row's id never changes (it is either not SET or SET to
itself). -/
def gormUpdateRow (t : Todo) (r : TodoRow) : TodoRow :=
  if t.id = 0 ∨ r.id = t.id then
    { id := r.id,
      text := if t.text = "" then r.text else t.text,
      done := if t.done then true else r.done,
      userID := if t.userID = 0 then r.userID else t.userID }
  else r

/-- GORM v1 `db.Delete(&todo)`: `DELETE FROM todos WHERE id = ?` with the
struct's primary key when it is non-blank; with a blank key the WHERE clause
is omitted and every row is deleted. -/
def gormDeleteRows (key : Int) (l : List TodoRow) : List TodoRow :=
  if key = 0 then [] else l.filter (fun r => r.id != key)

/-- Resolver `CreateTodo` (`graph/schema.resolvers.go`): builds
`models.Todo{Text: input.Text, UserID: input.UserID, Done: false}`, calls
`db.Create(&todo)` (INSERT with a storage-generated id, written back into the
struct; the zero-value `User` association is blank, so GORM saves nothing
else), and returns `&todo, nil`.  No statement inspects the `users` table. -/
def createTodo (fail : DriverErr) (db : DB) (text : String) (userId : Int) :
    Todo × Option String × DB :=
  match fail with
  | some _ =>
      ({ Todo.zero with text := text, userID := userId }, none, db)
  | none =>
      let todo : Todo :=
        { id := db.nextTodoID, text := text, done := false, userID := userId, user := User.zero }
      (todo, none,
        { db with
            todos := db.todos ++ [{ id := db.nextTodoID, text := text, done := false,
                                    userID := userId }],
            nextTodoID := db.nextTodoID + 1 })

/-- Resolver `UpdateTodo`: builds `models.Todo{ID: input.ID}`, loads it with
`db.First(&todo)` (keyed by the struct's primary key when nonzero, the
WHERE-less lowest-id load when `input.ID` is 0; on a miss the struct is left
as built), overwrites `todo.Text`, persists with
`db.Model(&models.Todo{}).Update(&todo)`, and returns `&todo, nil`. -/
def updateTodo (fail : DriverErr) (db : DB) (id : Int) (text : String) :
    Todo × Option String × DB :=
  match fail with
  | some _ =>
      ({ Todo.zero with id := id, text := text }, none, db)
  | none =>
      let loaded : Todo :=
        match db.gormFirstTodo id with
        | some r => rowToTodo r
        | none => { Todo.zero with id := id }
      let todo : Todo := { loaded with text := text }
      (todo, none, { db with todos := db.todos.map (gormUpdateRow todo) })

/-- Resolver `DeleteTodo`: builds `models.Todo{ID: input}`, loads it with
`db.First(&todo)` (keyed when the struct's primary key is nonzero, the
WHERE-less lowest-id load when `input` is 0 — the load then overwrites
`todo.ID` with the loaded row's id; on a miss the struct is left as built),
then `db.Delete(&todo)` removes the rows matching `todo.ID` (every row when
it is still blank), and returns `&todo, nil`. -/
def deleteTodo (fail : DriverErr) (db : DB) (id : Int) :
    Todo × Option String × DB :=
  match fail with
  | some _ =>
      ({ Todo.zero with id := id }, none, db)
  | none =>
      let loaded : Todo :=
        match db.gormFirstTodo id with
        | some r => rowToTodo r
        | none => { Todo.zero with id := id }
      (loaded, none, { db with todos := gormDeleteRows loaded.id db.todos })

/-- Resolver `CreateUser`: builds `models.User{Name: input.Name}`, calls
`db.Create(&user)` (the empty `Todos` association is blank, so only a `users`
row is inserted), and returns `&user, nil`. -/
def createUser (fail : DriverErr) (db : DB) (name : String) :
    User × Option String × DB :=
  match fail with
  | some _ =>
      ({ User.zero with name := name }, none, db)
  | none =>
      let user : User := { id := db.nextUserID, name := name }
      (user, none, { db with users := db.users ++ [user], nextUserID := db.nextUserID + 1 })

/-- Query resolver `Todos`: `db.Preload("User").Find(&todos)` loads every
`todos` row with its owner resolved and returns the slice with a nil error
(on a driver failure the slice stays nil). -/
def listTodos (fail : DriverErr) (db : DB) :
    List Todo × Option String × DB :=
  match fail with
  | some _ => ([], none, db)
  | none =>
      (db.todos.map (fun r => { rowToTodo r with user := db.preloadUser r.userID }), none, db)

/-- Query resolver `Users`: `db.Find(&users)` loads every `users` row (no
preload of the `Todos` back-reference) and returns the slice with a nil
error. -/
def listUsers (fail : DriverErr) (db : DB) :
    List User × Option String × DB :=
  match fail with
  | some _ => ([], none, db)
  | none => (db.users, none, db)

/-- Query resolver `Todo`: `var todo models.Todo` (zero value), then
`db.Preload("User").First(&todo, input.ID)`; on a miss the struct stays the
zero value; the result is returned with a nil error. -/
def fetchTodo (fail : DriverErr) (db : DB) (id : Int) :
    Todo × Option String × DB :=
  match fail with
  | some _ => (Todo.zero, none, db)
  | none =>
      match db.firstTodo id with
      | some r => ({ rowToTodo r with user := db.preloadUser r.userID }, none, db)
      | none => (Todo.zero, none, db)

/-- One call to the facade, as dispatched by the generated GraphQL layer. -/
inductive Op where
  | createTodo (text : String) (userId : Int)
  | updateTodo (id : Int) (text : String)
  | deleteTodo (id : Int)
  | createUser (name : String)
  | todosQ
  | usersQ
  | fetchTodo (id : Int)
  deriving DecidableEq, Repr

/-- State transition of one facade call under a normally operating driver
(a request whose driver fails performs no write, so failed requests do not
change the reachable state space). -/
def applyOp (db : DB) (op : Op) : DB :=
  match op with
  | .createTodo t u => (createTodo none db t u).2.2
  | .updateTodo i t => (updateTodo none db i t).2.2
  | .deleteTodo i => (deleteTodo none db i).2.2
  | .createUser n => (createUser none db n).2.2
  | .todosQ => (listTodos none db).2.2
  | .usersQ => (listUsers none db).2.2
  | .fetchTodo i => (fetchTodo none db i).2.2

/-- Running a sequence of facade calls from a state. -/
def applyOps (db : DB) (ops : List Op) : DB :=
  ops.foldl applyOp db

/-- A storage state the facade can actually be in: reachable from the freshly
migrated empty database by some sequence of facade calls. -/
def Reachable (db : DB) : Prop :=
  ∃ ops : List Op, applyOps dbInit ops = db

/-- Well-formedness the storage layer maintains: every stored todo id is a
positive value below the auto-increment counter, ids are unique (primary
key), and both counters are positive. -/
def WF (db : DB) : Prop :=
  (∀ r ∈ db.todos, 0 < r.id ∧ r.id < db.nextTodoID) ∧
    (db.todos.map TodoRow.id).Nodup ∧
    0 < db.nextTodoID ∧ 0 < db.nextUserID

/-! ### State characterizations of the resolvers under a normally operating driver -/

/-- State effect of `CreateTodo`: one row appended to the `todos` table, the
auto-increment counter advanced. -/
theorem createTodo_state (db : DB) (t : String) (u : Int) :
    (createTodo none db t u).2.2 =
      { db with
          todos := db.todos ++ [{ id := db.nextTodoID, text := t, done := false, userID := u }],
          nextTodoID := db.nextTodoID + 1 } := rfl

/-- State effect of `CreateUser`: one row appended to the `users` table, the
auto-increment counter advanced. -/
theorem createUser_state (db : DB) (n : String) :
    (createUser none db n).2.2 =
      { db with
          users := db.users ++ [{ id := db.nextUserID, name := n }],
          nextUserID := db.nextUserID + 1 } := rfl

/-- State effect of `UpdateTodo`: the UPDATE statement applied row-wise, with
the returned struct as the update source. -/
theorem updateTodo_state (db : DB) (i : Int) (t : String) :
    (updateTodo none db i t).2.2 =
      { db with todos := db.todos.map (gormUpdateRow (updateTodo none db i t).1) } := by
  cases hfind : db.gormFirstTodo i <;> simp [updateTodo, hfind]

/-- State effect of `DeleteTodo`: the DELETE statement keyed by the primary
key of the struct after the load (the returned snapshot); nothing else
changes. -/
theorem deleteTodo_state (db : DB) (i : Int) :
    (deleteTodo none db i).2.2 =
      { db with todos := gormDeleteRows ((deleteTodo none db i).1.id) db.todos } := by
  cases hfind : db.gormFirstTodo i <;> simp [deleteTodo, hfind]

/-- The `Todos` query never changes the state, whatever the driver does. -/
theorem listTodos_state (fail : DriverErr) (db : DB) : (listTodos fail db).2.2 = db := by
  cases fail <;> rfl

/-- The `Users` query never changes the state, whatever the driver does. -/
theorem listUsers_state (fail : DriverErr) (db : DB) : (listUsers fail db).2.2 = db := by
  cases fail <;> rfl

/-- The `Todo` query never changes the state, whatever the driver does. -/
theorem fetchTodo_state (fail : DriverErr) (db : DB) (i : Int) :
    (fetchTodo fail db i).2.2 = db := by
  cases fail with
  | none => cases hfind : db.firstTodo i <;> simp [fetchTodo, hfind]
  | some e => rfl

/-! ### The UPDATE statement preserves row identity -/

/-- The row-wise UPDATE never changes a row's primary key (`id` is either
not SET or SET to its own value). -/
theorem gormUpdateRow_id (t : Todo) (r : TodoRow) : (gormUpdateRow t r).id = r.id := by
  unfold gormUpdateRow
  split
  next => rfl
  next => rfl

/-- The list of primary keys of the `todos` table is invariant under the
row-wise UPDATE. -/
theorem map_gormUpdateRow_ids (t : Todo) (l : List TodoRow) :
    (l.map (gormUpdateRow t)).map TodoRow.id = l.map TodoRow.id := by
  rw [List.map_map]
  exact List.map_congr_left fun r _ => gormUpdateRow_id t r

/-- A row the UPDATE does not match (non-blank key, different id) is left
exactly as it was. -/
theorem gormUpdateRow_untouched (t : Todo) (r : TodoRow)
    (h : ¬ (t.id = 0 ∨ r.id = t.id)) : gormUpdateRow t r = r := by
  unfold gormUpdateRow
  rw [if_neg h]

/-- When the update source carries the row's own `done` and `user_id` values,
the UPDATE leaves both columns of the row unchanged (a `true` flag is SET to
`true`, a `false` flag is not SET; likewise for the owner id). -/
theorem gormUpdateRow_keeps (t : Todo) (r : TodoRow) (hdone : t.done = r.done)
    (huid : t.userID = r.userID) :
    (gormUpdateRow t r).done = r.done ∧ (gormUpdateRow t r).userID = r.userID := by
  by_cases hc : t.id = 0 ∨ r.id = t.id
  · unfold gormUpdateRow
    rw [if_pos hc]
    refine ⟨?_, ?_⟩
    · show (if t.done = true then true else r.done) = r.done
      rw [hdone]
      cases r.done <;> simp
    · show (if t.userID = 0 then r.userID else t.userID) = r.userID
      rw [huid, ite_self]
  · rw [gormUpdateRow_untouched t r hc]
    exact ⟨rfl, rfl⟩

/-- When the update source carries a blank `done` flag and a blank owner id
(both excluded from the SET list), the UPDATE leaves both columns of every
row unchanged, matched or not. -/
theorem gormUpdateRow_keeps_zero (t : Todo) (r : TodoRow) (hdone : t.done = false)
    (huid : t.userID = 0) :
    (gormUpdateRow t r).done = r.done ∧ (gormUpdateRow t r).userID = r.userID := by
  by_cases hc : t.id = 0 ∨ r.id = t.id
  · unfold gormUpdateRow
    rw [if_pos hc]
    refine ⟨?_, ?_⟩
    · show (if t.done = true then true else r.done) = r.done
      rw [hdone]
      simp
    · show (if t.userID = 0 then r.userID else t.userID) = r.userID
      rw [huid]
      simp
  · rw [gormUpdateRow_untouched t r hc]
    exact ⟨rfl, rfl⟩

/-- A successful WHERE-less lowest-id load returns a stored row. -/
theorem minIdRow_mem : ∀ {l : List TodoRow} {r : TodoRow}, minIdRow l = some r → r ∈ l := by
  intro l
  induction l with
  | nil =>
      intro r h
      simp [minIdRow] at h
  | cons a l ih =>
      intro r h
      unfold minIdRow at h
      split at h
      · simp at h
        subst h
        exact List.mem_cons_self a l
      · rename_i s h2
        split at h
        · simp at h
          subst h
          exact List.mem_cons_self a l
        · simp at h
          subst h
          exact List.mem_cons_of_mem a (ih h2)

/-- The WHERE-less lowest-id load misses only on an empty table. -/
theorem minIdRow_cons_ne_none (a : TodoRow) (l : List TodoRow) :
    minIdRow (a :: l) ≠ none := by
  unfold minIdRow
  split
  · simp
  · split <;> simp

/-- A row loaded by `db.First(&todo)` (keyed or blank) is a stored row. -/
theorem gormFirstTodo_mem {db : DB} {i : Int} {m : TodoRow}
    (h : db.gormFirstTodo i = some m) : m ∈ db.todos := by
  unfold DB.gormFirstTodo at h
  split at h
  · exact minIdRow_mem h
  · exact List.mem_of_find?_eq_some h

/-- For a nonzero id, the struct-keyed `First` is exactly the keyed
lookup. -/
theorem gormFirstTodo_of_ne {db : DB} {i : Int} (h : i ≠ 0) :
    db.gormFirstTodo i = db.firstTodo i := by
  unfold DB.gormFirstTodo
  rw [if_neg h]

/-- A row surviving the DELETE statement was stored before it. -/
theorem mem_of_mem_gormDeleteRows {key : Int} {l : List TodoRow} {r : TodoRow}
    (h : r ∈ gormDeleteRows key l) : r ∈ l := by
  unfold gormDeleteRows at h
  split at h
  · exact absurd h (List.not_mem_nil r)
  · exact List.mem_of_mem_filter h

/-- In a well-formed state, the UPDATE issued by `UpdateTodo` leaves the
`done` and `user_id` columns of every stored row unchanged.  When the load
misses, the update source carries blank `done`/owner fields, which are not
SET; when it hits, the loaded row has a positive (hence non-blank) id, so
the UPDATE is keyed: rows with a different primary key are not matched, and
the single matched row (primary keys are unique) receives its own loaded
`done` and `user_id` values back. -/
theorem updateTodo_row_frame {db : DB} (h : WF db) (i : Int) (t : String)
    {s : TodoRow} (hs : s ∈ db.todos) :
    (gormUpdateRow (updateTodo none db i t).1 s).done = s.done ∧
      (gormUpdateRow (updateTodo none db i t).1 s).userID = s.userID := by
  obtain ⟨hbound, hnodup, hpos, hupos⟩ := h
  cases hfind : db.gormFirstTodo i with
  | none =>
      have htodo : (updateTodo none db i t).1 = { Todo.zero with id := i, text := t } := by
        simp [updateTodo, hfind]
      rw [htodo]
      exact gormUpdateRow_keeps_zero _ s rfl rfl
  | some m =>
      have hmem : m ∈ db.todos := gormFirstTodo_mem hfind
      have hmid : 0 < m.id := (hbound m hmem).1
      have htodo : (updateTodo none db i t).1 =
          { id := m.id, text := t, done := m.done, userID := m.userID,
            user := User.zero } := by
        simp [updateTodo, hfind, rowToTodo]
      rw [htodo]
      by_cases hcase : s.id = m.id
      · have hseq : m = s := List.inj_on_of_nodup_map hnodup hmem hs hcase.symm
        exact gormUpdateRow_keeps _ s (by rw [hseq]) (by rw [hseq])
      · rw [gormUpdateRow_untouched]
        · exact ⟨rfl, rfl⟩
        · intro hor
          rcases hor with h0 | hseq
          · have h0m : m.id = 0 := h0
            omega
          · exact hcase hseq

/-! ### The storage invariant and its preservation -/

/-- The freshly migrated state is well-formed. -/
theorem wf_dbInit : WF dbInit := by
  refine ⟨by simp [dbInit], by simp [dbInit], by norm_num [dbInit], by norm_num [dbInit]⟩

/-- `CreateTodo` preserves well-formedness: the inserted row takes the
counter value, strictly above every stored id. -/
theorem wf_createTodo {db : DB} (h : WF db) (t : String) (u : Int) :
    WF (createTodo none db t u).2.2 := by
  obtain ⟨hbound, hnodup, hpos, hupos⟩ := h
  rw [createTodo_state]
  refine ⟨?_, ?_, by show 0 < db.nextTodoID + 1; omega, hupos⟩
  · intro r hr
    rcases List.mem_append.mp hr with hmem | hmem
    · have h2 := hbound r hmem
      show 0 < r.id ∧ r.id < db.nextTodoID + 1
      omega
    · rw [List.mem_singleton] at hmem
      subst hmem
      show 0 < db.nextTodoID ∧ db.nextTodoID < db.nextTodoID + 1
      omega
  · show ((db.todos ++ [TodoRow.mk db.nextTodoID t false u]).map TodoRow.id).Nodup
    rw [List.map_append]
    refine hnodup.append (List.nodup_singleton _) ?_
    intro a ha hb
    simp only [List.map_cons, List.map_nil, List.mem_singleton] at hb
    subst hb
    obtain ⟨s, hs, hid⟩ := List.mem_map.mp ha
    have h2 := hbound s hs
    omega

/-- `UpdateTodo` preserves well-formedness: the UPDATE keeps every primary
key in place. -/
theorem wf_updateTodo {db : DB} (h : WF db) (i : Int) (t : String) :
    WF (updateTodo none db i t).2.2 := by
  obtain ⟨hbound, hnodup, hpos, hupos⟩ := h
  rw [updateTodo_state]
  refine ⟨?_, ?_, hpos, hupos⟩
  · intro r hr
    obtain ⟨s, hs, rfl⟩ := List.mem_map.mp hr
    rw [gormUpdateRow_id]
    exact hbound s hs
  · show ((db.todos.map (gormUpdateRow (updateTodo none db i t).1)).map TodoRow.id).Nodup
    rw [map_gormUpdateRow_ids]
    exact hnodup

/-- `DeleteTodo` preserves well-formedness: the surviving rows are a sublist
of the old table. -/
theorem wf_deleteTodo {db : DB} (h : WF db) (i : Int) :
    WF (deleteTodo none db i).2.2 := by
  obtain ⟨hbound, hnodup, hpos, hupos⟩ := h
  rw [deleteTodo_state]
  refine ⟨?_, ?_, hpos, hupos⟩
  · intro r hr
    exact hbound r (mem_of_mem_gormDeleteRows hr)
  · show ((gormDeleteRows ((deleteTodo none db i).1.id) db.todos).map TodoRow.id).Nodup
    unfold gormDeleteRows
    split
    · simp
    · exact List.Nodup.sublist ((List.filter_sublist _).map TodoRow.id) hnodup

/-- `CreateUser` preserves well-formedness: the `todos` table and its counter
are untouched. -/
theorem wf_createUser {db : DB} (h : WF db) (n : String) :
    WF (createUser none db n).2.2 := by
  obtain ⟨hbound, hnodup, hpos, hupos⟩ := h
  exact ⟨hbound, hnodup, hpos, by show 0 < db.nextUserID + 1; omega⟩

/-- Every facade call preserves the storage invariant. -/
theorem wf_applyOp {db : DB} (h : WF db) (op : Op) : WF (applyOp db op) := by
  cases op with
  | createTodo t u => exact wf_createTodo h t u
  | updateTodo i t => exact wf_updateTodo h i t
  | deleteTodo i => exact wf_deleteTodo h i
  | createUser n => exact wf_createUser h n
  | todosQ => exact h
  | usersQ => exact h
  | fetchTodo i =>
      have h1 : applyOp db (Op.fetchTodo i) = db := fetchTodo_state none db i
      rw [h1]
      exact h

/-- Every sequence of facade calls preserves the storage invariant. -/
theorem wf_applyOps {db : DB} (h : WF db) (ops : List Op) : WF (applyOps db ops) := by
  induction ops generalizing db with
  | nil => exact h
  | cons op ops ih => exact ih (wf_applyOp h op)

/-- Every reachable state is well-formed. -/
theorem wf_reachable {db : DB} (h : Reachable db) : WF db := by
  obtain ⟨ops, rfl⟩ := h
  exact wf_applyOps wf_dbInit ops

/-- The `todos` auto-increment counter never decreases. -/
theorem applyOp_nextTodoID_mono (db : DB) (op : Op) :
    db.nextTodoID ≤ (applyOp db op).nextTodoID := by
  cases op with
  | createTodo t u => show db.nextTodoID ≤ db.nextTodoID + 1; omega
  | updateTodo i t => exact le_refl _
  | deleteTodo i => exact le_refl _
  | createUser n => exact le_refl _
  | todosQ => exact le_refl _
  | usersQ => exact le_refl _
  | fetchTodo i =>
      have h1 : applyOp db (Op.fetchTodo i) = db := fetchTodo_state none db i
      rw [h1]

/-- After one facade call, every stored row either descends from an old row
with the same id and unchanged `done` and `user_id`, or is freshly created
with an id at or above the old counter. -/
theorem applyOp_todos_step {db : DB} (h : WF db) (op : Op) {r' : TodoRow}
    (hr' : r' ∈ (applyOp db op).todos) :
    (∃ s ∈ db.todos, s.id = r'.id ∧ r'.done = s.done ∧ r'.userID = s.userID) ∨
      db.nextTodoID ≤ r'.id := by
  cases op with
  | createTodo t u =>
      have hr2 : r' ∈ db.todos ++ [TodoRow.mk db.nextTodoID t false u] := hr'
      rcases List.mem_append.mp hr2 with hmem | hmem
      · exact Or.inl ⟨r', hmem, rfl, rfl, rfl⟩
      · rw [List.mem_singleton] at hmem
        subst hmem
        exact Or.inr (le_refl _)
  | updateTodo i t =>
      simp only [applyOp] at hr'
      rw [updateTodo_state] at hr'
      obtain ⟨s, hs, rfl⟩ := List.mem_map.mp hr'
      have hframe := updateTodo_row_frame h i t hs
      exact Or.inl ⟨s, hs, (gormUpdateRow_id _ s).symm, hframe.1, hframe.2⟩
  | deleteTodo i =>
      simp only [applyOp] at hr'
      rw [deleteTodo_state] at hr'
      exact Or.inl ⟨r', mem_of_mem_gormDeleteRows hr', rfl, rfl, rfl⟩
  | createUser n => exact Or.inl ⟨r', hr', rfl, rfl, rfl⟩
  | todosQ => exact Or.inl ⟨r', hr', rfl, rfl, rfl⟩
  | usersQ => exact Or.inl ⟨r', hr', rfl, rfl, rfl⟩
  | fetchTodo i =>
      have h1 : applyOp db (Op.fetchTodo i) = db := fetchTodo_state none db i
      rw [h1] at hr'
      exact Or.inl ⟨r', hr', rfl, rfl, rfl⟩

/-- After any sequence of facade calls, every stored row either descends from
a row of the starting state with the same id and unchanged `done` and
`user_id`, or was created during the sequence (id at or above the starting
counter). -/
theorem applyOps_todos_trace (ops : List Op) :
    ∀ {db : DB}, WF db → ∀ {r' : TodoRow}, r' ∈ (applyOps db ops).todos →
      (∃ s ∈ db.todos, s.id = r'.id ∧ r'.done = s.done ∧ r'.userID = s.userID) ∨
        db.nextTodoID ≤ r'.id := by
  induction ops with
  | nil =>
      intro db h r' hr'
      exact Or.inl ⟨r', hr', rfl, rfl, rfl⟩
  | cons op ops ih =>
      intro db h r' hr'
      have h1 : WF (applyOp db op) := wf_applyOp h op
      have hr1 : r' ∈ (applyOps (applyOp db op) ops).todos := hr'
      rcases ih h1 hr1 with ⟨s₁, hs₁, hid₁, hdone₁, huid₁⟩ | hge
      · rcases applyOp_todos_step h op hs₁ with ⟨s, hs, hid, hdone, huid⟩ | hge₁
        · exact Or.inl ⟨s, hs, hid.trans hid₁, hdone₁.trans hdone, huid₁.trans huid⟩
        · exact Or.inr (by omega)
      · exact Or.inr (le_trans (applyOp_nextTodoID_mono db op) hge)

/-! ### The claims -/

/-- C1 counterexample: id 0 identifies no stored todo (the store holds only
a row with id 1), yet `UpdateTodo(0, "x")` and `DeleteTodo(0)` do not return
the default/zero-value entity: GORM v1's `db.First` omits the WHERE clause
for the blank primary key and loads the lowest-id row, which the resolvers
then return (and act on). -/
theorem c1_blank_key_counterexample :
    (DB.mk [TodoRow.mk 1 "a" false 1] [] 2 1).firstTodo 0 = none ∧
      ¬ ((updateTodo none (DB.mk [TodoRow.mk 1 "a" false 1] [] 2 1) 0 "x").1 =
          { Todo.zero with id := 0, text := "x" }) ∧
      ¬ ((deleteTodo none (DB.mk [TodoRow.mk 1 "a" false 1] [] 2 1) 0).1 =
          { Todo.zero with id := 0 }) := by
  decide

/-- C1 (amended): for a NONZERO id with no stored todo, `UpdateTodo`,
`DeleteTodo` and the `Todo` query all signal success (the resolver returns a
nil error) and return the default/zero-value entity instead of a not-found
error: the record loaded by the missed lookup is the zero value, so all
returned fields are the zero value except those the caller itself supplied
(the id for update and delete, the new text for update).  At id 0 the
blank-key `First` loads the lowest-id row instead (see the counterexample);
every id the facade ever stores is positive, so a stored todo is never hit
by the excluded instance. -/
theorem c1_miss_silent_success {db : DB} {i : Int} (h0 : i ≠ 0)
    (h : db.firstTodo i = none) (t : String) :
    (updateTodo none db i t).1 = { Todo.zero with id := i, text := t } ∧
      (updateTodo none db i t).2.1 = none ∧
      (deleteTodo none db i).1 = { Todo.zero with id := i } ∧
      (deleteTodo none db i).2.1 = none ∧
      (fetchTodo none db i).1 = Todo.zero ∧
      (fetchTodo none db i).2.1 = none := by
  have hg : db.gormFirstTodo i = none := by
    rw [gormFirstTodo_of_ne h0]
    exact h
  refine ⟨?_, rfl, ?_, rfl, ?_, ?_⟩
  · simp [updateTodo, hg]
  · simp [deleteTodo, hg]
  · simp [fetchTodo, h]
  · simp [fetchTodo, h]

/-- C1 witness: the empty store misses id 5 and all three operations behave
as proved. -/
theorem c1_miss_silent_success_witness :
    ((5 : Int) ≠ 0 ∧ dbInit.firstTodo 5 = none) ∧
      ((updateTodo none dbInit 5 "x").1 = { Todo.zero with id := 5, text := "x" } ∧
        (updateTodo none dbInit 5 "x").2.1 = none ∧
        (deleteTodo none dbInit 5).1 = { Todo.zero with id := 5 } ∧
        (deleteTodo none dbInit 5).2.1 = none ∧
        (fetchTodo none dbInit 5).1 = Todo.zero ∧
        (fetchTodo none dbInit 5).2.1 = none) :=
  ⟨⟨by decide, by decide⟩, c1_miss_silent_success (by decide) (by decide) "x"⟩

/-- C2: updating a stored todo (queried by a nonzero id — the only ids the
facade ever stores are positive, see `wf_reachable`) returns a `Todo` whose
text is the new text and whose `done` and `userID` are exactly the
pre-update stored values, because the resolver loads the full record before
overwriting only the text field (read-modify-write); the error returned is
nil.  The nonzero guard excludes only GORM v1's blank-primary-key `First`,
whose keyed WHERE clause would be dropped. -/
theorem c2_update_read_modify_write {db : DB} {i : Int} {r : TodoRow} (h0 : i ≠ 0)
    (h : db.firstTodo i = some r) (t : String) :
    (updateTodo none db i t).1 =
      { id := r.id, text := t, done := r.done, userID := r.userID, user := User.zero } ∧
      (updateTodo none db i t).2.1 = none := by
  have hg : db.gormFirstTodo i = some r := by
    rw [gormFirstTodo_of_ne h0]
    exact h
  refine ⟨?_, rfl⟩
  simp [updateTodo, hg, rowToTodo]

/-- C2 witness: a store holding the todo (1, "a", done, owner 7); updating
its text to "b" keeps done and owner. -/
theorem c2_update_read_modify_write_witness :
    ((1 : Int) ≠ 0 ∧
        (DB.mk [TodoRow.mk 1 "a" true 7] [] 2 1).firstTodo 1 =
          some (TodoRow.mk 1 "a" true 7)) ∧
      ((updateTodo none (DB.mk [TodoRow.mk 1 "a" true 7] [] 2 1) 1 "b").1 =
        { id := 1, text := "b", done := true, userID := 7, user := User.zero } ∧
        (updateTodo none (DB.mk [TodoRow.mk 1 "a" true 7] [] 2 1) 1 "b").2.1 = none) :=
  ⟨⟨by decide, by decide⟩,
    @c2_update_read_modify_write (DB.mk [TodoRow.mk 1 "a" true 7] [] 2 1) 1
      (TodoRow.mk 1 "a" true 7) (by decide) (by decide) "b"⟩

/-- C3: on any reachable state, `CreateTodo` succeeds (nil error) and
returns a todo with done = false, the input text, the input owner id and the
storage-generated id (positive, the auto-increment counter), and it appends
exactly that row to the `todos` table.  The owner id is universally
quantified with no hypothesis relating it to the `users` table: no check
that it references an existing user is made. -/
theorem c3_createTodo_inserts {db : DB} (h : Reachable db) (t : String) (u : Int) :
    (createTodo none db t u).2.1 = none ∧
      (createTodo none db t u).1.done = false ∧
      (createTodo none db t u).1.text = t ∧
      (createTodo none db t u).1.userID = u ∧
      0 < (createTodo none db t u).1.id ∧
      (createTodo none db t u).2.2.todos =
        db.todos ++ [TodoRow.mk ((createTodo none db t u).1.id) t false u] := by
  obtain ⟨hbound, hnodup, hpos, hupos⟩ := wf_reachable h
  exact ⟨rfl, rfl, rfl, rfl, hpos, rfl⟩

/-- C3 witness: creating ("a", owner 1) on the freshly migrated store (owner
1 does not even exist) yields id 1 > 0 and inserts the row. -/
theorem c3_createTodo_inserts_witness :
    Reachable dbInit ∧
      ((createTodo none dbInit "a" 1).2.1 = none ∧
        (createTodo none dbInit "a" 1).1.done = false ∧
        (createTodo none dbInit "a" 1).1.text = "a" ∧
        (createTodo none dbInit "a" 1).1.userID = 1 ∧
        0 < (createTodo none dbInit "a" 1).1.id ∧
        (createTodo none dbInit "a" 1).2.2.todos =
          dbInit.todos ++ [TodoRow.mk ((createTodo none dbInit "a" 1).1.id) "a" false 1]) :=
  ⟨⟨[], rfl⟩, c3_createTodo_inserts ⟨[], rfl⟩ "a" 1⟩

/-- C4: deleting a stored todo (queried by a nonzero id — the only ids the
facade ever stores are positive, see `wf_reachable`) returns the pre-delete
snapshot of the record (same id and text as stored), signals success, and
afterwards the row is no longer stored: a direct lookup misses and a
subsequent `Todo` query on that id returns the zero value.  The nonzero
guard excludes only GORM v1's blank-primary-key `First`, which would load
the lowest-id row instead of the queried one. -/
theorem c4_delete_returns_snapshot {db : DB} {i : Int} {r : TodoRow} (h0 : i ≠ 0)
    (h : db.firstTodo i = some r) :
    (deleteTodo none db i).1 = rowToTodo r ∧
      (deleteTodo none db i).2.1 = none ∧
      (deleteTodo none db i).2.2.firstTodo i = none ∧
      (fetchTodo none (deleteTodo none db i).2.2 i).1 = Todo.zero := by
  have hg : db.gormFirstTodo i = some r := by
    rw [gormFirstTodo_of_ne h0]
    exact h
  have hrid : r.id = i := by
    have h2 := List.find?_some h
    simpa using h2
  have hval : (deleteTodo none db i).1 = rowToTodo r := by
    simp [deleteTodo, hg]
  have hstate : (deleteTodo none db i).2.2 =
      { db with todos := db.todos.filter (fun x => x.id != i) } := by
    rw [deleteTodo_state, hval]
    unfold gormDeleteRows
    rw [show (rowToTodo r).id = i from hrid, if_neg h0]
  have hnone : (deleteTodo none db i).2.2.firstTodo i = none := by
    rw [hstate]
    show (db.todos.filter (fun x => x.id != i)).find? (fun x => x.id == i) = none
    rw [List.find?_eq_none]
    intro x hx
    have hx2 := (List.mem_filter.mp hx).2
    simp only [bne_iff_ne, ne_eq] at hx2
    simp [hx2]
  exact ⟨hval, rfl, hnone, by simp [fetchTodo, hnone]⟩

/-- C4 witness: deleting the stored todo (1, "a") returns its snapshot and
id 1 is gone afterwards. -/
theorem c4_delete_returns_snapshot_witness :
    ((1 : Int) ≠ 0 ∧
        (DB.mk [TodoRow.mk 1 "a" true 7] [] 2 1).firstTodo 1 =
          some (TodoRow.mk 1 "a" true 7)) ∧
      ((deleteTodo none (DB.mk [TodoRow.mk 1 "a" true 7] [] 2 1) 1).1 =
          rowToTodo (TodoRow.mk 1 "a" true 7) ∧
        (deleteTodo none (DB.mk [TodoRow.mk 1 "a" true 7] [] 2 1) 1).2.1 = none ∧
        (deleteTodo none (DB.mk [TodoRow.mk 1 "a" true 7] [] 2 1) 1).2.2.firstTodo 1 = none ∧
        (fetchTodo none (deleteTodo none (DB.mk [TodoRow.mk 1 "a" true 7] [] 2 1) 1).2.2 1).1 =
          Todo.zero) :=
  ⟨⟨by decide, by decide⟩,
    @c4_delete_returns_snapshot (DB.mk [TodoRow.mk 1 "a" true 7] [] 2 1) 1
      (TodoRow.mk 1 "a" true 7) (by decide) (by decide)⟩

/-- C5: the three query resolvers `Todos`, `Users` and `Todo` are
side-effect free: for every starting state, every input id, and every driver
outcome, each leaves the stored state (both tables and both counters)
exactly as it was. -/
theorem c5_queries_no_side_effects (fail : DriverErr) (db : DB) (i : Int) :
    (listTodos fail db).2.2 = db ∧
      (listUsers fail db).2.2 = db ∧
      (fetchTodo fail db i).2.2 = db :=
  ⟨listTodos_state fail db, listUsers_state fail db, fetchTodo_state fail db i⟩

/-- C6: on every reachable state and along every sequence of facade calls,
the `done` and `user_id` columns of a stored todo are never changed: any row
still stored under the same id after arbitrarily many operations carries its
original `done` and owner values (text is the only mutable column). -/
theorem c6_done_owner_never_mutated {db : DB} (h : Reachable db) (ops : List Op)
    {r r' : TodoRow} (hr : r ∈ db.todos) (hr' : r' ∈ (applyOps db ops).todos)
    (hid : r'.id = r.id) :
    r'.done = r.done ∧ r'.userID = r.userID := by
  have hwf := wf_reachable h
  obtain ⟨hbound, hnodup, hpos, hupos⟩ := wf_reachable h
  rcases applyOps_todos_trace ops hwf hr' with ⟨s, hs, hsid, hdone, huid⟩ | hge
  · have hseq : s = r := List.inj_on_of_nodup_map hnodup hs hr (hsid.trans hid)
    subst hseq
    exact ⟨hdone, huid⟩
  · exfalso
    have h2 := (hbound r hr).2
    omega

/-- C6 witness: from the reachable state holding todo (1, "a", false, owner
1), an update of its text to "b" leaves done and owner unchanged. -/
theorem c6_done_owner_never_mutated_witness :
    Reachable (DB.mk [TodoRow.mk 1 "a" false 1] [User.mk 1 "Jamie"] 2 2) ∧
      TodoRow.mk 1 "a" false 1 ∈ (DB.mk [TodoRow.mk 1 "a" false 1] [User.mk 1 "Jamie"] 2 2).todos ∧
      TodoRow.mk 1 "b" false 1 ∈
        (applyOps (DB.mk [TodoRow.mk 1 "a" false 1] [User.mk 1 "Jamie"] 2 2)
          [Op.updateTodo 1 "b"]).todos ∧
      (TodoRow.mk 1 "b" false 1).id = (TodoRow.mk 1 "a" false 1).id ∧
      ((TodoRow.mk 1 "b" false 1).done = (TodoRow.mk 1 "a" false 1).done ∧
        (TodoRow.mk 1 "b" false 1).userID = (TodoRow.mk 1 "a" false 1).userID) :=
  ⟨⟨[Op.createUser "Jamie", Op.createTodo "a" 1], by decide⟩, by decide, by decide, by decide,
    @c6_done_owner_never_mutated (DB.mk [TodoRow.mk 1 "a" false 1] [User.mk 1 "Jamie"] 2 2)
      ⟨[Op.createUser "Jamie", Op.createTodo "a" 1], by decide⟩ [Op.updateTodo 1 "b"]
      (TodoRow.mk 1 "a" false 1) (TodoRow.mk 1 "b" false 1)
      (by decide) (by decide) (by decide)⟩

/-- C7 counterexample: when the INSERT of `CreateTodo` fails with a raw
driver error, the resolver does not return that error to the caller — it
returns nil — so the claim that the raw storage-driver error is returned
unmodified is false. -/
theorem c7_counterexample_error_swallowed :
    ¬ ((createTodo (some "Error 2013: lost connection to MySQL server") dbInit "a" 1).2.1 =
        some "Error 2013: lost connection to MySQL server") := by
  simp [createTodo]

/-- C7 (amended): when an underlying storage call fails during a request,
the resolver discards the error instead of failing: every one of the seven
operations returns a nil error to the caller whatever the driver outcome,
with no retry and no translation. -/
theorem c7_amended_errors_discarded (fail : DriverErr) (db : DB) (t n : String) (i u : Int) :
    (createTodo fail db t u).2.1 = none ∧
      (updateTodo fail db i t).2.1 = none ∧
      (deleteTodo fail db i).2.1 = none ∧
      (createUser fail db n).2.1 = none ∧
      (listTodos fail db).2.1 = none ∧
      (listUsers fail db).2.1 = none ∧
      (fetchTodo fail db i).2.1 = none := by
  cases fail with
  | none =>
      refine ⟨rfl, rfl, rfl, rfl, rfl, rfl, ?_⟩
      cases hfind : db.firstTodo i <;> simp [fetchTodo, hfind]
  | some e => exact ⟨rfl, rfl, rfl, rfl, rfl, rfl, rfl⟩

/-- C8: the `Todos` query returns every stored todo row with its owning user
eagerly resolved (general characterization), and in the concrete scenario —
one user "Jamie" created on the empty store, then two todos owned by them —
it returns a sequence of length 2 whose entries both carry the owner's id
and name. -/
theorem c8_listTodos_eager_join (db : DB) :
    (listTodos none db).1 =
      db.todos.map (fun r => { rowToTodo r with user := db.preloadUser r.userID }) ∧
      (listTodos none
          (applyOps dbInit [Op.createUser "Jamie", Op.createTodo "t1" 1,
            Op.createTodo "t2" 1])).1 =
        [Todo.mk 1 "t1" false 1 (User.mk 1 "Jamie"),
          Todo.mk 2 "t2" false 1 (User.mk 1 "Jamie")] ∧
      (listTodos none
          (applyOps dbInit [Op.createUser "Jamie", Op.createTodo "t1" 1,
            Op.createTodo "t2" 1])).1.length = 2 :=
  ⟨rfl, by decide, by decide⟩

/-- C9: `CreateTodo` leaves the `users` table unchanged and `CreateUser`
leaves the `todos` table unchanged, for every starting state, every input
and every driver outcome: each create writes only to its own entity's
table. -/
theorem c9_creates_write_own_table (fail : DriverErr) (db : DB) (t n : String) (u : Int) :
    (createTodo fail db t u).2.2.users = db.users ∧
      (createUser fail db n).2.2.todos = db.todos := by
  cases fail <;> exact ⟨rfl, rfl⟩

/-- C10 counterexample: id 0 identifies no stored todo (the store holds only
a row with id 1), yet `DeleteTodo(0)` does not leave the store unchanged:
GORM v1's blank-key `First` loads the lowest-id row into the struct, whose
primary key then drives the DELETE, removing that row. -/
theorem c10_blank_key_counterexample :
    (DB.mk [TodoRow.mk 1 "a" false 1] [] 2 1).firstTodo 0 = none ∧
      ¬ ((deleteTodo none (DB.mk [TodoRow.mk 1 "a" false 1] [] 2 1) 0).2.2 =
          DB.mk [TodoRow.mk 1 "a" false 1] [] 2 1) := by
  decide

/-- C10 (amended): deleting a NONZERO id with no stored todo is an atomic
no-op on the state: the whole store (both tables and both counters) is
exactly unchanged, and the resolver still reports success (nil error).  At
id 0 on a nonempty table the blank-key `First` loads the lowest-id row and
the DELETE removes it (see the counterexample). -/
theorem c10_delete_miss_noop {db : DB} {i : Int} (h0 : i ≠ 0)
    (h : db.firstTodo i = none) :
    (deleteTodo none db i).2.2 = db ∧ (deleteTodo none db i).2.1 = none := by
  have hg : db.gormFirstTodo i = none := by
    rw [gormFirstTodo_of_ne h0]
    exact h
  have hval : (deleteTodo none db i).1 = { Todo.zero with id := i } := by
    simp [deleteTodo, hg]
  refine ⟨?_, rfl⟩
  rw [deleteTodo_state, hval]
  unfold gormDeleteRows
  rw [show ({ Todo.zero with id := i } : Todo).id = i from rfl, if_neg h0]
  have hfix : db.todos.filter (fun r => r.id != i) = db.todos := by
    rw [List.filter_eq_self]
    intro a ha
    have h2 := List.find?_eq_none.mp h a ha
    simpa using h2
  rw [hfix]

/-- C10 witness: deleting id 3 from the empty store changes nothing and
succeeds. -/
theorem c10_delete_miss_noop_witness :
    ((3 : Int) ≠ 0 ∧ dbInit.firstTodo 3 = none) ∧
      ((deleteTodo none dbInit 3).2.2 = dbInit ∧ (deleteTodo none dbInit 3).2.1 = none) :=
  ⟨⟨by decide, by decide⟩, c10_delete_miss_noop (by decide) (by decide)⟩
